import Mathlib

/-!
Shallow embedding of the statement rewrite rules of
`nuitka/nodes/AssignNodes.py`: the `computeStatement` methods of the
assignment, deletion and release statement kinds, along with the
exception predicates (`mayRaiseException`, `mayHaveSideEffects`) and
`needsReleaseValue`.

Expressions are modelled by the analysis attributes the rewrite rules
query on them (`willRaiseException`, `mayHaveSideEffects`,
`isExpressionVariableRef`/`getVariable`, `isExpressionSideEffects`/
`getSideEffects`, `isCompileTimeConstant`, `isMutable`, function
creation shape).  The constraint collection is modelled by the traces
it answers with, and each rewrite rule additionally produces the
ordered log of the constraint-collection calls it makes, so that
analysis order (which sub-expression is analyzed, and when the control
flow escape is recorded) is part of the formalised behaviour.
-/

/-- A variable identity with its kind flags, as queried by the rules
(`isModuleVariable`, `isLocalVariable`, `isTempVariable`,
`isSharedLogically`, `isSharedTechnically`, `getName`). -/
structure Var where
  vid : Nat
  name : String
  isModuleVariable : Bool
  isLocalVariable : Bool
  isTempVariable : Bool
  isSharedLogically : Bool
  isSharedTechnically : Bool
deriving DecidableEq, Repr

/-- Shape attributes of an `ExpressionFunctionCreation` source, as
queried by the propagation branch of
`StatementAssignmentVariable.computeStatement`. -/
structure FuncCreationInfo where
  isGenerator : Bool
  isClassDictCreation : Bool
  hasDefaults : Bool
  hasKwDefaults : Bool
  hasAnnotations : Bool
deriving DecidableEq, Repr

/-- The parent variable provider, as queried by the propagation branch
(`isUnoptimized`, `isClassDictCreation`). -/
structure Provider where
  isUnoptimized : Bool
  isClassDictCreation : Bool
deriving DecidableEq, Repr

/-- An already-analyzed expression, modelled by the analysis
attributes the statement rewrite rules read from it.  `eid` is an
identity tag distinguishing node objects.  `mayRaiseFn` models the
`mayRaiseException(exception_type)` predicate, with exception types
numbered.  `varRef` is `some v` exactly when the expression
`isExpressionVariableRef()` with `getVariable() = v`.  `sideEffects`
is `some es` exactly when the expression `isExpressionSideEffects()`
with `getSideEffects() = es`.  `funcInfo` is `some fi` exactly when the
expression `isExpressionFunctionCreation()` with shape `fi`. -/
inductive Expr where
  | mk (eid : Nat) (willR mayHaveSE : Bool) (mayRaiseFn : Nat → Bool)
       (varRef : Option Var) (sideEffects : Option (List Expr))
       (isConst isMut : Bool) (funcInfo : Option FuncCreationInfo)

/-- `willRaiseException(BaseException)` on an analyzed expression. -/
def Expr.willRaiseException : Expr → Bool
  | .mk _ w _ _ _ _ _ _ _ => w

/-- `mayHaveSideEffects()` on an analyzed expression. -/
def Expr.mayHaveSideEffects : Expr → Bool
  | .mk _ _ se _ _ _ _ _ _ => se

/-- `mayRaiseException(exception_type)` on an analyzed expression. -/
def Expr.mayRaiseException : Expr → Nat → Bool
  | .mk _ _ _ f _ _ _ _ _ => f

/-- `getVariable()` when `isExpressionVariableRef()`, else `none`. -/
def Expr.variableRef : Expr → Option Var
  | .mk _ _ _ _ v _ _ _ _ => v

/-- `getSideEffects()` when `isExpressionSideEffects()`, else `none`. -/
def Expr.sideEffects : Expr → Option (List Expr)
  | .mk _ _ _ _ _ s _ _ _ => s

/-- `isCompileTimeConstant()` on an analyzed expression. -/
def Expr.isCompileTimeConstant : Expr → Bool
  | .mk _ _ _ _ _ _ c _ _ => c

/-- `isMutable()` on an analyzed expression. -/
def Expr.isMutable : Expr → Bool
  | .mk _ _ _ _ _ _ _ m _ => m

/-- Function creation shape when `isExpressionFunctionCreation()`. -/
def Expr.funcInfo : Expr → Option FuncCreationInfo
  | .mk _ _ _ _ _ _ _ _ fi => fi

/-- A variable trace, modelled by the predicates the rules query on it
and its `previous` back-link. -/
inductive VariableTrace where
  | mk (isUninit mustHave mustNotHave : Bool) (definiteUsages : Nat)
       (hasPotential hasName : Bool) (previous : Option VariableTrace)

/-- `isUninitTrace()` on a trace. -/
def VariableTrace.isUninitTrace : VariableTrace → Bool
  | .mk u _ _ _ _ _ _ => u

/-- `mustHaveValue()` on a trace. -/
def VariableTrace.mustHaveValue : VariableTrace → Bool
  | .mk _ mh _ _ _ _ _ => mh

/-- `mustNotHaveValue()` on a trace. -/
def VariableTrace.mustNotHaveValue : VariableTrace → Bool
  | .mk _ _ mn _ _ _ _ => mn

/-- `getDefiniteUsages()` on a trace. -/
def VariableTrace.getDefiniteUsages : VariableTrace → Nat
  | .mk _ _ _ d _ _ _ => d

/-- `hasDefiniteUsages()` on a trace. -/
def VariableTrace.hasDefiniteUsages (t : VariableTrace) : Bool :=
  t.getDefiniteUsages != 0

/-- `hasPotentialUsages()` on a trace. -/
def VariableTrace.hasPotentialUsages : VariableTrace → Bool
  | .mk _ _ _ _ p _ _ => p

/-- `hasNameUsages()` on a trace. -/
def VariableTrace.hasNameUsages : VariableTrace → Bool
  | .mk _ _ _ _ _ n _ => n

/-- `getPrevious()` on a trace; absent for an initial trace (the
source assumes it is present wherever it calls it). -/
def VariableTrace.getPrevious : VariableTrace → Option VariableTrace
  | .mk _ _ _ _ _ _ p => p

/-- `getPrevious().isUninitTrace()`; the source assumes the previous
trace exists on every path where it evaluates this. -/
def VariableTrace.previousIsUninit (t : VariableTrace) : Bool :=
  (t.getPrevious.map VariableTrace.isUninitTrace).getD false

/-- The constraint collection, modelled by the traces its calls answer
with: `delResult` is what `onVariableDel` returns, `setResult` what
`onVariableSet` returns, `releaseResult` what `onVariableRelease`
returns, and `currentTrace` what `getVariableCurrentTrace` returns. -/
structure ConstraintCollection where
  delResult : VariableTrace
  setResult : VariableTrace
  releaseResult : VariableTrace
  currentTrace : VariableTrace

/-- One call a rewrite rule makes on the constraint collection; rules
produce the ordered log of these calls. -/
inductive CCEvent where
  | onExpression (e : Expr)
  | onVariableSet (v : Var)
  | onVariableDel (v : Var)
  | onVariableRelease (v : Var)
  | onControlFlowEscape
  | getVariableCurrentTrace (v : Var)

/-- A statement appearing in a replacement produced by a rule:
a bare evaluation of an expression
(`makeStatementExpressionOnlyReplacementNode` /
`makeStatementOnlyNodesFromExpressions`), the original statement kept
inside a sequence, or a generated `StatementDelVariable`. -/
inductive RStmt where
  | exprOnly (e : Expr)
  | keepSelf
  | delVar (v : Var) (tolerant : Bool)

/-- The replacement slot of a rule result: the original node
unchanged, `None` (removed), a single new statement, or an ordered
sequence of statements. -/
inductive Replacement where
  | original
  | removed
  | single (s : RStmt)
  | sequence (ss : List RStmt)

/-- The change tag of a rule result: `None`, `"new_statements"` or
`"new_raise"` in the source. -/
inductive ChangeTag where
  | nochange
  | new_statements
  | new_raise
deriving DecidableEq, Repr

/-- What a `computeStatement` call in the source actually returns: the
documented `(replacement, change_tag, description)` triple, or — as one
path of `StatementDelAttribute.computeStatement` does — a bare node
that is not a triple at all. -/
inductive PyReturn where
  | triple (r : Replacement) (tag : ChangeTag) (desc : Option String)
  | bare (r : RStmt)

/-- The common return contract of the rewrite rules: the value is a
`(replacement, change_tag, description)` triple whose description is a
non-empty string whenever the tag is not `None`. -/
def PyReturn.satisfiesRuleContract : PyReturn → Bool
  | .triple _ tag desc =>
      match tag with
      | .nochange => true
      | _ =>
          match desc with
          | some s => if s = "" then false else true
          | none => false
  | .bare _ => false

/-- `StatementAssignmentSubscript.computeStatement`: analyze source,
then subscribed expression, then subscript, short-circuiting at the
first sub-expression that always raises; otherwise record a control
flow escape and keep the statement. -/
def StatementAssignmentSubscript.computeStatement
    (source expression subscript : Expr) : List CCEvent × PyReturn :=
  let ev1 := [CCEvent.onExpression source]
  if source.willRaiseException = true then
    (ev1, .triple (.single (.exprOnly source)) .new_raise
      (some "Subscript assignment raises exception in assigned value, removed assignment."))
  else
    let ev2 := ev1 ++ [CCEvent.onExpression expression]
    if expression.willRaiseException = true then
      (ev2, .triple (.sequence [.exprOnly source, .exprOnly expression]) .new_raise
        (some "Subscript assignment raises exception in subscribed, removed assignment."))
    else
      let ev3 := ev2 ++ [CCEvent.onExpression subscript]
      if subscript.willRaiseException = true then
        (ev3, .triple
          (.sequence [.exprOnly source, .exprOnly expression, .exprOnly subscript])
          .new_raise
          (some "Subscript assignment raises exception in subscript value, removed assignment."))
      else
        (ev3 ++ [CCEvent.onControlFlowEscape], .triple .original .nochange none)

/-- A plain expression with identity `i` that raises no exception and
has no special shape; used as concrete input. -/
def plainExpr (i : Nat) : Expr :=
  Expr.mk i false false (fun _ => false) none none false false none

/-- A plain expression with identity `i` that always raises. -/
def raisingExpr (i : Nat) : Expr :=
  Expr.mk i true true (fun _ => true) none none false false none

/-- Tail of `StatementAssignmentSlice.computeStatement` after the
lower bound did not short-circuit: analyze the (optional) upper bound,
short-circuit when it always raises (the source passes the possibly
absent lower bound into the emitted expression tuple there), else
record the control flow escape and keep the statement. -/
def StatementAssignmentSlice.computeUpper (source expression : Expr)
    (lower upper : Option Expr) (ev : List CCEvent) :
    List CCEvent × PyReturn :=
  let ev4 := ev ++ (match upper with
    | some u => [CCEvent.onExpression u]
    | none => [])
  match upper with
  | some u =>
    if u.willRaiseException = true then
      (ev4, .triple
        (.sequence ([.exprOnly source, .exprOnly expression] ++
          (lower.map RStmt.exprOnly).toList ++ [.exprOnly u]))
        .new_raise
        (some "Slice assignment raises exception in upper slice boundary value, removed assignment."))
    else
      (ev4 ++ [CCEvent.onControlFlowEscape], .triple .original .nochange none)
  | none =>
      (ev4 ++ [CCEvent.onControlFlowEscape], .triple .original .nochange none)

/-- `StatementAssignmentSlice.computeStatement`: analyze source, then
sliced expression, then (optional) lower bound, then (optional) upper
bound, short-circuiting at the first sub-expression that always
raises; otherwise record a control flow escape and keep the
statement. -/
def StatementAssignmentSlice.computeStatement
    (source expression : Expr) (lower upper : Option Expr) :
    List CCEvent × PyReturn :=
  let ev1 := [CCEvent.onExpression source]
  if source.willRaiseException = true then
    (ev1, .triple (.single (.exprOnly source)) .new_raise
      (some "Slice assignment raises exception in assigned value, removed assignment."))
  else
    let ev2 := ev1 ++ [CCEvent.onExpression expression]
    if expression.willRaiseException = true then
      (ev2, .triple (.sequence [.exprOnly source, .exprOnly expression]) .new_raise
        (some "Slice assignment raises exception in sliced value, removed assignment."))
    else
      -- onExpression with allow_none: an absent bound is a no-op.
      let ev3 := ev2 ++ (match lower with
        | some l => [CCEvent.onExpression l]
        | none => [])
      match lower with
      | some l =>
        if l.willRaiseException = true then
          (ev3, .triple
            (.sequence [.exprOnly source, .exprOnly expression, .exprOnly l])
            .new_raise
            (some "Slice assignment raises exception in lower slice boundary value, removed assignment."))
        else
          StatementAssignmentSlice.computeUpper source expression (some l) upper ev3
      | none =>
          StatementAssignmentSlice.computeUpper source expression none upper ev3

/-- Result of `StatementDelVariable.computeStatement`: the call log,
the returned value, and the `previous_trace` / `variable_trace` the
node stores on itself (queried later by `mayRaiseException`). -/
structure DelVarCompute where
  events : List CCEvent
  ret : PyReturn
  previous_trace : Option VariableTrace
  variable_trace : Option VariableTrace

/-- `StatementDelVariable.computeStatement`: record `onVariableDel`
(storing the previous trace); a tolerant delete of an `Uninit` trace
is removed; otherwise record the control flow escape, re-fetch the
variable trace via `getVariableCurrentTrace`, and keep the
statement. -/
def StatementDelVariable.computeStatement
    (tolerant : Bool) (v : Var) (cc : ConstraintCollection) :
    DelVarCompute :=
  let previous := cc.delResult
  let ev1 := [CCEvent.onVariableDel v]
  if tolerant = true && previous.isUninitTrace = true then
    { events := ev1
      ret := .triple .removed .new_statements
        (some ("Removed tolerant del statement of " ++ v.name ++ " without effect."))
      previous_trace := some previous
      variable_trace := none }
  else
    { events := ev1 ++ [CCEvent.onControlFlowEscape,
        CCEvent.getVariableCurrentTrace v]
      ret := .triple .original .nochange none
      previous_trace := some previous
      variable_trace := some cc.currentTrace }

/-- `StatementDelVariable.mayHaveSideEffects`: always true. -/
def StatementDelVariable.mayHaveSideEffects : Bool :=
  true

/-- `StatementDelVariable.mayRaiseException`: a tolerant delete never
raises; a non-tolerant delete does not raise only when a trace was
recorded, the variable is not technically shared, and either the
variable is a temporary or the recorded previous trace must have a
value; in every other case it may raise. -/
def StatementDelVariable.mayRaiseException
    (tolerant : Bool) (v : Var)
    (variable_trace previous_trace : Option VariableTrace) : Bool :=
  if tolerant = true then
    false
  else
    match variable_trace with
    | some _ =>
      if v.isSharedTechnically = false then
        if v.isTempVariable = true then
          false
        else
          match previous_trace with
          | some pt => if pt.mustHaveValue = true then false else true
          | none => true
      else
        true
    | none => true

/-- Result of `StatementReleaseVariable.computeStatement`: the call
log, the returned value and the stored `variable_trace`. -/
structure ReleaseCompute where
  events : List CCEvent
  ret : PyReturn
  variable_trace : Option VariableTrace

/-- `StatementReleaseVariable.computeStatement`: record
`onVariableRelease`; when the resulting trace is `Uninit` the release
is removed, otherwise the statement is kept. -/
def StatementReleaseVariable.computeStatement
    (v : Var) (cc : ConstraintCollection) : ReleaseCompute :=
  let t := cc.releaseResult
  let ev1 := [CCEvent.onVariableRelease v]
  if t.isUninitTrace = true then
    { events := ev1
      ret := .triple .removed .new_statements
        (some ("Uninitialized variable " ++ v.name ++ " is not released."))
      variable_trace := some t }
  else
    { events := ev1
      ret := .triple .original .nochange none
      variable_trace := some t }

/-- `StatementReleaseVariable.mayHaveSideEffects`: always true (the
release may execute finalizer code). -/
def StatementReleaseVariable.mayHaveSideEffects : Bool :=
  true

/-- `StatementReleaseVariable.mayRaiseException`: always false for
every exception type (finalizers may not propagate exceptions
here). -/
def StatementReleaseVariable.mayRaiseException (_exception_type : Nat) : Bool :=
  false

/-- `StatementDelAttribute.computeStatement`: analyze the looked-up
expression; when it always raises the source returns the bare
replacement node alone — not a `(replacement, tag, description)`
triple; otherwise record the control flow escape and keep the
statement. -/
def StatementDelAttribute.computeStatement
    (expression : Expr) : List CCEvent × PyReturn :=
  let ev1 := [CCEvent.onExpression expression]
  if expression.willRaiseException = true then
    -- The source has `return makeStatementExpressionOnlyReplacementNode(...)`
    -- here, with no tag and no description.
    (ev1, .bare (.exprOnly expression))
  else
    (ev1 ++ [CCEvent.onControlFlowEscape], .triple .original .nochange none)

/-- The replacement slot of a triple, `none` for a bare return. -/
def PyReturn.getReplacement : PyReturn → Option Replacement
  | .triple r _ _ => some r
  | .bare _ => none

/-- The change tag of a triple, `none` for a bare return. -/
def PyReturn.getTag : PyReturn → Option ChangeTag
  | .triple _ tag _ => some tag
  | .bare _ => none

/-- The condition of the function-propagation branch of
`StatementAssignmentVariable.computeStatement`: the source is a
function creation whose body is neither a generator nor a class dict
creation, with no defaults, kw-defaults or annotations. -/
def isPlainFunctionCreation (source : Expr) : Bool :=
  match source.funcInfo with
  | some fi =>
      !fi.isGenerator && !fi.isClassDictCreation && !fi.hasDefaults &&
        !fi.hasKwDefaults && !fi.hasAnnotations
  | none => false

/-- Description produced by the propagation branch, parameterised on
the `propagated` flag as in the source. -/
def droppedAssignDesc (propagated : Bool) (name : String) : String :=
  "Dropped " ++ (if propagated = true then "propagated" else "dead") ++
    " assignment statement to " ++ name ++ "."

/-- Result of `StatementAssignmentVariable.computeStatement`: the call
log, the returned value, whether `setReplacementNode` was invoked on
the new trace (value forwarding), and the stored `variable_trace`. -/
structure AssignCompute where
  events : List CCEvent
  ret : PyReturn
  replacementSet : Bool
  variable_trace : Option VariableTrace

/-- `return self, None, None` at the end of
`StatementAssignmentVariable.computeStatement`, reached after
`onVariableSet` was recorded. -/
def assignNoChange (ev : List CCEvent) (replacementSet : Bool)
    (cc : ConstraintCollection) : AssignCompute :=
  { events := ev
    ret := .triple .original .nochange none
    replacementSet := replacementSet
    variable_trace := some cc.setResult }

/-- Whether an assignment compute outcome dropped the assignment: the
replacement is `None` or a generated tolerant delete, with the
`new_statements` tag. -/
def AssignCompute.dropped (o : AssignCompute) : Bool :=
  match o.ret with
  | .triple .removed .new_statements _ => true
  | .triple (.single (.delVar _ _)) .new_statements _ => true
  | _ => false

/-- `StatementAssignmentVariable.computeStatement`: analyze the
source; strip the assignment when the source always raises; optimize
self-assignment of a non-module variable; hoist extracted side
effects; otherwise record the new trace via `onVariableSet` and, under
experimental mode with a matching previous assign trace in the global
registry, attempt constant / function-creation propagation.
`global_trace` models `VariableRegistry.getGlobalVariableTrace` and,
inside it, `getMatchingAssignTrace`. -/
def StatementAssignmentVariable.computeStatement
    (source : Expr) (v : Var) (provider : Provider)
    (experimental : Bool) (global_trace : Option (Option VariableTrace))
    (cc : ConstraintCollection) : AssignCompute :=
  let ev1 := [CCEvent.onExpression source]
  if source.willRaiseException = true then
    { events := ev1
      ret := .triple (.single (.exprOnly source)) .new_raise
        (some "Assignment raises exception in assigned value, removed assignment.")
      replacementSet := false
      variable_trace := none }
  else if (v.isModuleVariable = false ∧ source.variableRef = some v) then
    if source.mayHaveSideEffects = true then
      { events := ev1
        ret := .triple (.single (.exprOnly source)) .new_statements
          (some "Reduced assignment of variable from itself to access of it.")
        replacementSet := false
        variable_trace := none }
    else
      { events := ev1
        ret := .triple .removed .new_statements
          (some "Removed assignment of variable from itself which is known to be defined.")
        replacementSet := false
        variable_trace := none }
  else
    match source.sideEffects with
    | some effects =>
      { events := ev1
        ret := .triple
          (.sequence ((effects.map RStmt.exprOnly) ++ [RStmt.keepSelf]))
          .new_statements
          (some "Side effects of assignments promoted to statements.")
        replacementSet := false
        variable_trace := none }
    | none =>
      let ev2 := ev1 ++ [CCEvent.onVariableSet v]
      match global_trace with
      | some gt =>
        if experimental = true then
          match gt with
          | some last_trace =>
            if (v.isLocalVariable = true ∨ v.isTempVariable = true) then
              if source.isCompileTimeConstant = true then
                if source.isMutable = false then
                  if (v.isTempVariable = true ∨
                      (provider.isUnoptimized = false ∧
                       provider.isClassDictCreation = false)) then
                    -- setReplacementNode is invoked here whenever the
                    -- previous trace has definite usages, before the
                    -- potential/name-usage and sharing checks.
                    let propagated := last_trace.hasDefiniteUsages
                    if (last_trace.hasPotentialUsages = false ∧
                        last_trace.hasNameUsages = false) then
                      if v.isSharedLogically = false then
                        { events := ev2
                          ret := .triple
                            (if last_trace.previousIsUninit = false then
                              .single (.delVar v true)
                            else
                              .removed)
                            .new_statements
                            (some (droppedAssignDesc propagated v.name))
                          replacementSet := propagated
                          variable_trace := some cc.setResult }
                      else assignNoChange ev2 propagated cc
                    else assignNoChange ev2 propagated cc
                  else assignNoChange ev2 false cc
                else assignNoChange ev2 false cc
              else if (experimental = true ∧ isPlainFunctionCreation source = true) then
                if (v.isTempVariable = true ∨
                    (provider.isUnoptimized = false ∧
                     provider.isClassDictCreation = false)) then
                  if v.isSharedLogically = false then
                    if (last_trace.getDefiniteUsages ≤ 1 ∧
                        last_trace.hasPotentialUsages = false ∧
                        last_trace.hasNameUsages = false) then
                      { events := ev2
                        ret := .triple
                          (if last_trace.previousIsUninit = false then
                            .single (.delVar v true)
                          else
                            .removed)
                          .new_statements
                          (some (droppedAssignDesc
                            (last_trace.getDefiniteUsages == 1) v.name))
                        replacementSet := last_trace.getDefiniteUsages == 1
                        variable_trace := some cc.setResult }
                    else assignNoChange ev2 false cc
                  else assignNoChange ev2 false cc
                else assignNoChange ev2 false cc
              else assignNoChange ev2 false cc
            else assignNoChange ev2 false cc
          | none => assignNoChange ev2 false cc
        else assignNoChange ev2 false cc
      | none => assignNoChange ev2 false cc

/-- The `StatementAssignmentVariable` node itself: its target variable
and assignment source, as read by `mayRaiseException`. -/
structure StatementAssignmentVariableNode where
  target : Var
  source : Expr

/-- `StatementAssignmentVariable.mayRaiseException`: delegates to the
assignment source. -/
def StatementAssignmentVariableNode.mayRaiseException
    (node : StatementAssignmentVariableNode) (exception_type : Nat) : Bool :=
  node.source.mayRaiseException exception_type

/-- `StatementAssignmentVariable.needsReleaseValue`, as a function of
`self.variable_trace.getPrevious()`: `False` when the previous trace
must not have a value, `True` when it must have one, and `None`
(unknown) otherwise. -/
def StatementAssignmentVariable.needsReleaseValue
    (previous : VariableTrace) : Option Bool :=
  if previous.mustNotHaveValue = true then
    some false
  else if previous.mustHaveValue = true then
    some true
  else
    none

/-- Modelled from the spec: `ExpressionVariableRef.mayHaveSideEffects`
is not among the sources here (only its caller is); per the spec, a
bare read of a non-module variable is observable exactly when it can
raise on an undefined variable, i.e. when the variable is not provably
already defined. -/
def variableRefMayHaveSideEffects (provablyDefined : Bool) : Bool :=
  !provablyDefined

/-- A compile-time constant, immutable expression with identity `i`. -/
def constExpr (i : Nat) : Expr :=
  Expr.mk i false false (fun _ => false) none none true false none

/-- A side-effect-free reference to variable `v` with identity `i`. -/
def pureRefExpr (i : Nat) (v : Var) : Expr :=
  Expr.mk i false false (fun _ => false) (some v) none false false none

/-- A plain non-module local variable. -/
def localVar : Var :=
  ⟨0, "x", false, true, false, false, false⟩

/-- A logically shared non-module local variable. -/
def sharedLocalVar : Var :=
  ⟨1, "y", false, true, false, true, false⟩

/-- A temporary variable that is technically shared. -/
def sharedTempVar : Var :=
  ⟨2, "tmp_a", false, false, true, false, true⟩

/-- A plain temporary variable. -/
def plainTempVar : Var :=
  ⟨3, "tmp_b", false, false, true, false, false⟩

/-- An `Uninit` trace. -/
def uninitTrace : VariableTrace :=
  .mk true false true 0 false false none

/-- An assigned trace with no recorded usages and no knowledge. -/
def unknownTrace : VariableTrace :=
  .mk false false false 0 false false none

/-- An assigned trace that must have a value. -/
def valueTrace : VariableTrace :=
  .mk false true false 0 false false none

/-- A previous assign trace with one definite usage, no potential and
no name usages, whose own previous trace is `Uninit`. -/
def oneUseTrace : VariableTrace :=
  .mk false false false 1 false false (some uninitTrace)

/-- A previous assign trace with two definite usages, no potential and
no name usages, whose own previous trace is `Uninit`. -/
def twoUseTrace : VariableTrace :=
  .mk false false false 2 false false (some uninitTrace)

/-- A constraint collection answering every call with an
uninformative assigned trace. -/
def ccPlain : ConstraintCollection :=
  ⟨unknownTrace, unknownTrace, unknownTrace, unknownTrace⟩

/-- A constraint collection whose `onVariableDel` and
`onVariableRelease` answers are `Uninit`. -/
def ccUninit : ConstraintCollection :=
  ⟨uninitTrace, unknownTrace, uninitTrace, unknownTrace⟩

/-- C1: the common rule contract says every `computeStatement` returns
a `(replacement, change_tag, description)` triple; but on the path of
`StatementDelAttribute.computeStatement` where the looked-up
expression always raises, the source returns the bare replacement node
alone, violating the contract. -/
theorem delAttribute_raise_path_returns_bare :
    (StatementDelAttribute.computeStatement (raisingExpr 0)).2 =
      PyReturn.bare (RStmt.exprOnly (raisingExpr 0)) ∧
    PyReturn.satisfiesRuleContract
      (StatementDelAttribute.computeStatement (raisingExpr 0)).2 = false :=
  ⟨rfl, rfl⟩

/-- C2 counterexample: for an assign-to-subscript whose subscript
always raises (source and subscribed fine), the replacement contains
the bare evaluations of source, subscribed AND the subscript itself —
not just the source and subscribed expression as the claim states. -/
theorem subscriptKeyRaise_counterexample :
    ((StatementAssignmentSubscript.computeStatement
        (plainExpr 0) (plainExpr 1) (raisingExpr 2)).2).getReplacement =
      some (Replacement.sequence
        [.exprOnly (plainExpr 0), .exprOnly (plainExpr 1),
         .exprOnly (raisingExpr 2)]) ∧
    Replacement.sequence
        [.exprOnly (plainExpr 0), .exprOnly (plainExpr 1),
         .exprOnly (raisingExpr 2)] ≠
      Replacement.sequence [.exprOnly (plainExpr 0), .exprOnly (plainExpr 1)] :=
  ⟨rfl, by simp⟩

/-- C2 amended: for an assign-to-subscript whose source and subscribed
expression do not always raise but whose subscript always raises, the
replacement is exactly the bare evaluations of source, subscribed
expression and subscript, in that order, tagged `new_raise`, with the
mutation dropped. -/
theorem subscriptKeyRaise_amended
    (source expression subscript : Expr)
    (hs : source.willRaiseException = false)
    (he : expression.willRaiseException = false)
    (hk : subscript.willRaiseException = true) :
    StatementAssignmentSubscript.computeStatement source expression subscript =
      ([CCEvent.onExpression source, CCEvent.onExpression expression,
        CCEvent.onExpression subscript],
       PyReturn.triple
        (.sequence [.exprOnly source, .exprOnly expression, .exprOnly subscript])
        .new_raise
        (some "Subscript assignment raises exception in subscript value, removed assignment.")) := by
  simp [StatementAssignmentSubscript.computeStatement, hs, he, hk]

/-- C2 amended, witnessed at concrete expressions. -/
theorem subscriptKeyRaise_amended_witness :
    StatementAssignmentSubscript.computeStatement
        (plainExpr 3) (plainExpr 4) (raisingExpr 5) =
      ([CCEvent.onExpression (plainExpr 3), CCEvent.onExpression (plainExpr 4),
        CCEvent.onExpression (raisingExpr 5)],
       PyReturn.triple
        (.sequence [.exprOnly (plainExpr 3), .exprOnly (plainExpr 4),
          .exprOnly (raisingExpr 5)])
        .new_raise
        (some "Subscript assignment raises exception in subscript value, removed assignment.")) :=
  subscriptKeyRaise_amended (plainExpr 3) (plainExpr 4) (raisingExpr 5) rfl rfl rfl

/-- C3 counterexample: under experimental mode, with a local
non-shared variable and an immutable constant source, the assignment
is dropped even though the previous trace shows TWO definite usages
(the claim says dropping happens only with at most one definite use);
and in the same scenario with a logically shared variable the
assignment is kept but the constant is still forwarded
(`setReplacementNode` is invoked), against the claim that no
propagation occurs. -/
theorem constantPropagation_counterexample :
    (StatementAssignmentVariable.computeStatement (constExpr 10) localVar
        ⟨false, false⟩ true (some (some twoUseTrace)) ccPlain).dropped = true ∧
    twoUseTrace.getDefiniteUsages = 2 ∧
    ¬(twoUseTrace.getDefiniteUsages ≤ 1) ∧
    (StatementAssignmentVariable.computeStatement (constExpr 10) sharedLocalVar
        ⟨false, false⟩ true (some (some oneUseTrace)) ccPlain).dropped = false ∧
    (StatementAssignmentVariable.computeStatement (constExpr 10) sharedLocalVar
        ⟨false, false⟩ true (some (some oneUseTrace)) ccPlain).replacementSet = true :=
  ⟨rfl, rfl, by decide, rfl, rfl⟩

/-- C3 amended: under experimental mode with a matching previous
assign trace, a local or temporary variable and an immutable
compile-time constant source (not a variable self-reference, no
extracted side effects, provider allowing optimization), the
assignment is dropped exactly when the previous trace has no potential
usages, no name usages, and the variable is not logically shared — the
definite-usage count does not gate the drop; the constant is forwarded
(`setReplacementNode`) exactly when the previous trace has definite
usages, even when the variable is logically shared, in which case the
statement itself is kept unchanged. -/
theorem constantPropagation_amended
    (source : Expr) (v : Var) (provider : Provider)
    (lt : VariableTrace) (cc : ConstraintCollection)
    (hr : source.willRaiseException = false)
    (hv : source.variableRef = none)
    (hse : source.sideEffects = none)
    (hc : source.isCompileTimeConstant = true)
    (hm : source.isMutable = false)
    (hlocal : v.isLocalVariable = true ∨ v.isTempVariable = true)
    (hprov : v.isTempVariable = true ∨
      (provider.isUnoptimized = false ∧ provider.isClassDictCreation = false)) :
    ((StatementAssignmentVariable.computeStatement source v provider
        true (some (some lt)) cc).dropped = true ↔
      (lt.hasPotentialUsages = false ∧ lt.hasNameUsages = false ∧
        v.isSharedLogically = false)) ∧
    (StatementAssignmentVariable.computeStatement source v provider
        true (some (some lt)) cc).replacementSet = lt.hasDefiniteUsages ∧
    (v.isSharedLogically = true →
      (StatementAssignmentVariable.computeStatement source v provider
          true (some (some lt)) cc).ret =
        PyReturn.triple .original .nochange none) := by
  rcases hlocal with h1 | h1 <;> rcases hprov with h2 | h2 <;>
    cases hp : lt.hasPotentialUsages <;> cases hn : lt.hasNameUsages <;>
    cases hsl : v.isSharedLogically <;> cases hpi : lt.previousIsUninit <;>
    simp [StatementAssignmentVariable.computeStatement, assignNoChange,
      AssignCompute.dropped, hr, hv, hse, hc, hm, h1, h2, hp, hn, hsl, hpi]

/-- C3 amended, witnessed: a local non-shared variable assigned an
immutable constant with one definite use and no potential or name uses
has its assignment dropped. -/
theorem constantPropagation_amended_witness :
    (StatementAssignmentVariable.computeStatement (constExpr 10) localVar
        ⟨false, false⟩ true (some (some oneUseTrace)) ccPlain).dropped = true :=
  (constantPropagation_amended (constExpr 10) localVar ⟨false, false⟩
      oneUseTrace ccPlain rfl rfl rfl rfl rfl (Or.inl rfl)
      (Or.inr ⟨rfl, rfl⟩)).1.mpr ⟨rfl, rfl, rfl⟩

/-- C4: for an assign-to-slice with both bounds present where source
and sliced expression do not always raise but the lower bound does,
the analysis log is exactly [source, sliced expression, lower] — the
upper bound is never analyzed — and the replacement is exactly the
bare evaluations [source, sliced expression, lower], tagged
`new_raise`. -/
theorem sliceLowerRaise_order
    (source expression l u : Expr)
    (hs : source.willRaiseException = false)
    (he : expression.willRaiseException = false)
    (hl : l.willRaiseException = true) :
    StatementAssignmentSlice.computeStatement source expression
        (some l) (some u) =
      ([CCEvent.onExpression source, CCEvent.onExpression expression,
        CCEvent.onExpression l],
       PyReturn.triple
        (.sequence [.exprOnly source, .exprOnly expression, .exprOnly l])
        .new_raise
        (some "Slice assignment raises exception in lower slice boundary value, removed assignment.")) ∧
    (u ≠ source → u ≠ expression → u ≠ l →
      CCEvent.onExpression u ∉
        (StatementAssignmentSlice.computeStatement source expression
          (some l) (some u)).1) := by
  constructor
  · simp [StatementAssignmentSlice.computeStatement, hs, he, hl]
  · intro h1 h2 h3
    simp [StatementAssignmentSlice.computeStatement, hs, he, hl, h1, h2, h3]

/-- C4, witnessed at concrete expressions: the upper bound expression
does not occur in the analysis log. -/
theorem sliceLowerRaise_order_witness :
    StatementAssignmentSlice.computeStatement (plainExpr 6) (plainExpr 7)
        (some (raisingExpr 8)) (some (plainExpr 9)) =
      ([CCEvent.onExpression (plainExpr 6), CCEvent.onExpression (plainExpr 7),
        CCEvent.onExpression (raisingExpr 8)],
       PyReturn.triple
        (.sequence [.exprOnly (plainExpr 6), .exprOnly (plainExpr 7),
          .exprOnly (raisingExpr 8)])
        .new_raise
        (some "Slice assignment raises exception in lower slice boundary value, removed assignment.")) ∧
    CCEvent.onExpression (plainExpr 9) ∉
      (StatementAssignmentSlice.computeStatement (plainExpr 6) (plainExpr 7)
        (some (raisingExpr 8)) (some (plainExpr 9))).1 :=
  ⟨(sliceLowerRaise_order (plainExpr 6) (plainExpr 7) (raisingExpr 8)
      (plainExpr 9) rfl rfl rfl).1,
   (sliceLowerRaise_order (plainExpr 6) (plainExpr 7) (raisingExpr 8)
      (plainExpr 9) rfl rfl rfl).2
     (by simp [plainExpr]) (by simp [plainExpr])
     (by simp [plainExpr, raisingExpr])⟩

/-- C5: assigning a non-module variable to itself — with the
side-effect status of the bare read modelled from the spec as "may
raise iff not provably defined" — removes the statement entirely when
the variable is provably already defined, and otherwise reduces it to
a bare evaluation of the reference; both with the `new_statements`
tag. -/
theorem selfAssignment_behavior
    (source : Expr) (v : Var) (provider : Provider)
    (experimental : Bool) (gt : Option (Option VariableTrace))
    (cc : ConstraintCollection) (provablyDefined : Bool)
    (hr : source.willRaiseException = false)
    (hm : v.isModuleVariable = false)
    (hv : source.variableRef = some v)
    (hse : source.mayHaveSideEffects =
      variableRefMayHaveSideEffects provablyDefined) :
    (provablyDefined = true →
      (StatementAssignmentVariable.computeStatement source v provider
          experimental gt cc).ret =
        PyReturn.triple .removed .new_statements
          (some "Removed assignment of variable from itself which is known to be defined.")) ∧
    (provablyDefined = false →
      (StatementAssignmentVariable.computeStatement source v provider
          experimental gt cc).ret =
        PyReturn.triple (.single (.exprOnly source)) .new_statements
          (some "Reduced assignment of variable from itself to access of it.")) := by
  cases provablyDefined <;>
    simp [StatementAssignmentVariable.computeStatement,
      variableRefMayHaveSideEffects, hr, hm, hv, hse]

/-- C5, witnessed: a side-effect-free self-assignment of a defined
local variable is removed entirely. -/
theorem selfAssignment_behavior_witness :
    (StatementAssignmentVariable.computeStatement (pureRefExpr 11 localVar)
        localVar ⟨false, false⟩ false none ccPlain).ret =
      PyReturn.triple .removed .new_statements
        (some "Removed assignment of variable from itself which is known to be defined.") :=
  (selfAssignment_behavior (pureRefExpr 11 localVar) localVar ⟨false, false⟩
      false none ccPlain true rfl rfl rfl rfl).1 rfl

/-- C6: a delete-variable statement first records `onVariableDel`;
when tolerant and the previous trace is `Uninit` it is removed with
tag `new_statements`; in every other case `onControlFlowEscape` is
recorded and the variable trace re-fetched via
`getVariableCurrentTrace` before the statement is returned
unchanged. -/
theorem delVariable_behavior
    (tolerant : Bool) (v : Var) (cc : ConstraintCollection) :
    ((StatementDelVariable.computeStatement tolerant v cc).events.head? =
      some (CCEvent.onVariableDel v)) ∧
    (tolerant = true → cc.delResult.isUninitTrace = true →
      StatementDelVariable.computeStatement tolerant v cc =
        { events := [CCEvent.onVariableDel v]
          ret := .triple .removed .new_statements
            (some ("Removed tolerant del statement of " ++ v.name ++
              " without effect."))
          previous_trace := some cc.delResult
          variable_trace := none }) ∧
    ((tolerant = false ∨ cc.delResult.isUninitTrace = false) →
      StatementDelVariable.computeStatement tolerant v cc =
        { events := [CCEvent.onVariableDel v, CCEvent.onControlFlowEscape,
            CCEvent.getVariableCurrentTrace v]
          ret := .triple .original .nochange none
          previous_trace := some cc.delResult
          variable_trace := some cc.currentTrace }) := by
  cases tolerant <;> cases hu : cc.delResult.isUninitTrace <;>
    simp [StatementDelVariable.computeStatement, hu]

/-- C6, witnessed: a tolerant delete whose previous trace is `Uninit`
is removed after the single `onVariableDel` call. -/
theorem delVariable_behavior_witness :
    StatementDelVariable.computeStatement true localVar ccUninit =
      { events := [CCEvent.onVariableDel localVar]
        ret := .triple .removed .new_statements
          (some ("Removed tolerant del statement of " ++ localVar.name ++
            " without effect."))
        previous_trace := some ccUninit.delResult
        variable_trace := none } :=
  (delVariable_behavior true localVar ccUninit).2.1 rfl rfl

/-- C7 counterexample: a non-tolerant delete of a temporary variable
that is technically shared may raise according to the source, although
the claim says a temporary never does. -/
theorem delVarMayRaise_counterexample :
    StatementDelVariable.mayRaiseException false sharedTempVar
        (some unknownTrace) (some unknownTrace) = true ∧
    sharedTempVar.isTempVariable = true :=
  ⟨rfl, rfl⟩

/-- C7 amended: a tolerant delete never raises; a non-tolerant delete
with no recorded trace may raise; with recorded traces it does not
raise exactly when the variable is not technically shared and either
the variable is a temporary or the previous trace must have a
value. -/
theorem delVarMayRaise_amended
    (tolerant : Bool) (v : Var) (vt pt : VariableTrace)
    (h : tolerant = false) :
    (StatementDelVariable.mayRaiseException true v (some vt) (some pt) =
      false) ∧
    (StatementDelVariable.mayRaiseException tolerant v none (some pt) =
      true) ∧
    (StatementDelVariable.mayRaiseException tolerant v (some vt) (some pt) =
        false ↔
      (v.isSharedTechnically = false ∧
        (v.isTempVariable = true ∨ pt.mustHaveValue = true))) := by
  subst h
  refine ⟨rfl, rfl, ?_⟩
  cases hst : v.isSharedTechnically <;> cases htv : v.isTempVariable <;>
    cases hmv : pt.mustHaveValue <;>
    simp [StatementDelVariable.mayRaiseException, hst, htv, hmv]

/-- C7 amended, witnessed: a non-tolerant delete of a plain temporary
with recorded traces does not raise. -/
theorem delVarMayRaise_amended_witness :
    StatementDelVariable.mayRaiseException false plainTempVar
        (some unknownTrace) (some unknownTrace) = false :=
  (delVarMayRaise_amended false plainTempVar unknownTrace unknownTrace
      rfl).2.2.mpr ⟨rfl, Or.inl rfl⟩

/-- C8: a release-variable statement records exactly one
`onVariableRelease` call and is removed (tag `new_statements`) exactly
when the resulting trace is `Uninit`, otherwise kept unchanged; it
always may have side effects and never itself raises, for any
exception type. -/
theorem releaseVariable_behavior
    (v : Var) (cc : ConstraintCollection) (exception_type : Nat) :
    (StatementReleaseVariable.computeStatement v cc).events =
      [CCEvent.onVariableRelease v] ∧
    (StatementReleaseVariable.computeStatement v cc).ret =
      (if cc.releaseResult.isUninitTrace = true then
        PyReturn.triple .removed .new_statements
          (some ("Uninitialized variable " ++ v.name ++ " is not released."))
      else
        PyReturn.triple .original .nochange none) ∧
    (StatementReleaseVariable.computeStatement v cc).variable_trace =
      some cc.releaseResult ∧
    StatementReleaseVariable.mayHaveSideEffects = true ∧
    StatementReleaseVariable.mayRaiseException exception_type = false := by
  refine ⟨?_, ?_, ?_, rfl, rfl⟩ <;>
    cases hu : cc.releaseResult.isUninitTrace <;>
    simp [StatementReleaseVariable.computeStatement, hu]

/-- C9: the exception potential of an assign-to-variable statement is
exactly that of its assignment source, for every exception type: two
assignment statements with the same source have the same exception
potential no matter their target variable. -/
theorem assignVariable_mayRaise_delegates
    (n1 n2 : StatementAssignmentVariableNode) (exception_type : Nat)
    (h : n1.source = n2.source) :
    n1.mayRaiseException exception_type =
      n1.source.mayRaiseException exception_type ∧
    n1.mayRaiseException exception_type =
      n2.mayRaiseException exception_type := by
  refine ⟨rfl, ?_⟩
  simp [StatementAssignmentVariableNode.mayRaiseException, h]

/-- C9, witnessed: two assignments of the same source to different
variables have the same exception potential. -/
theorem assignVariable_mayRaise_delegates_witness :
    StatementAssignmentVariableNode.mayRaiseException
        ⟨localVar, plainExpr 20⟩ 0 =
      StatementAssignmentVariableNode.mayRaiseException
        ⟨sharedLocalVar, plainExpr 20⟩ 0 :=
  (assignVariable_mayRaise_delegates ⟨localVar, plainExpr 20⟩
      ⟨sharedLocalVar, plainExpr 20⟩ 0 rfl).2

/-- C10: `needsReleaseValue` is three-valued in the previous trace:
`False` when the previous trace must not have a value, `True` when it
must have a value (and not must-not), and `None` otherwise. -/
theorem needsReleaseValue_threeValued (previous : VariableTrace) :
    (previous.mustNotHaveValue = true →
      StatementAssignmentVariable.needsReleaseValue previous = some false) ∧
    (previous.mustNotHaveValue = false → previous.mustHaveValue = true →
      StatementAssignmentVariable.needsReleaseValue previous = some true) ∧
    (previous.mustNotHaveValue = false → previous.mustHaveValue = false →
      StatementAssignmentVariable.needsReleaseValue previous = none) := by
  refine ⟨?_, ?_, ?_⟩ <;>
    intro h1 <;>
    simp [StatementAssignmentVariable.needsReleaseValue, h1]

/-- C10, witnessed: a previous trace that must have a value makes the
release decision `True`. -/
theorem needsReleaseValue_threeValued_witness :
    StatementAssignmentVariable.needsReleaseValue valueTrace = some true :=
  (needsReleaseValue_threeValued valueTrace).2.1 rfl rfl
